import Mathlib

/-!
Verification of the real-time messaging gateway
(`server/app/socket_handlers.py`) of the Ds_Virtual_pace repository.

The Python handlers are shallowly embedded as pure Lean functions:
external collaborators (the token verifier, the message store, the
booking store, the Redis sorted set backing the rate limiter) become
explicit inputs, and every `emit(...)` performed by a handler becomes an
element of an output event list, in emission order.  `emit` without a
`room=` argument in flask-socketio delivers only to the originating
session; events carrying a `room` field below are broadcasts to that
room.
-/

namespace VirtualPace

/-! ## Rate limiter (`is_rate_limited`, socket_handlers.py lines 16-38)

The Redis sorted set `chat_rate_limit:{user_id}` is modelled as a list
of integer scores (timestamps).  `zremrangebyscore key 0 (now - 60)`
removes exactly the scores in the closed interval `[0, now - 60]`;
`zadd key {str(now): now}` is a no-op on cardinality when the member is
already present, hence the `contains` guard. -/

def RATE_LIMIT_COUNT : Nat := 8

def RATE_LIMIT_WINDOW_SECONDS : Int := 60

/-- The `zremrangebyscore(key, 0, now - window)` step: keep a score iff
it lies outside the closed interval `[0, now - window]`. -/
def purge (now : Int) (st : List Int) : List Int :=
  st.filter (fun t => decide (t < 0 ∨ now - RATE_LIMIT_WINDOW_SECONDS < t))

/-- `is_rate_limited(user_id)`: purge old timestamps, count the rest;
at or above the cap report limited without recording, otherwise record
`now` and allow.  Returns (limited?, new sorted-set state). -/
def is_rate_limited (now : Int) (st : List Int) : Bool × List Int :=
  let purged := purge now st
  if RATE_LIMIT_COUNT ≤ purged.length then
    (true, purged)
  else
    (false, if purged.contains now then purged else purged ++ [now])

/-- Run `is_rate_limited` over a sequence of call times, threading the
sorted-set state; returns the list of verdicts and the final state. -/
def runRL : List Int → List Int → List Bool × List Int
  | [], st => ([], st)
  | t :: ts, st =>
    let r := is_rate_limited t st
    let rest := runRL ts r.2
    (r.1 :: rest.1, rest.2)

/-! ## Events and payload values -/

/-- An event emitted by a handler.  `error` and `status` are delivered
to the originating session only (flask-socketio `emit` without a room,
resp. `room=request.sid`); the constructors carrying a `room` argument
are broadcasts to that room. -/
inductive Ev where
  | error (msg : String)
  | connected (userId : String)
  | status (msg : String)
  | messagesRead (room bookingId : String) (count : Nat)
  | newMessage (room : String) (id sender receiver content : String)
      (bookingId : Option String) (createdAt : String)
  | notification (room sender : String) (bookingId : Option String)
  | bookingUpdated (room bookingId status updatedBy : String)
deriving DecidableEq, Repr

def Ev.isError : Ev → Bool
  | .error _ => true
  | _ => false

def Ev.isNewMessage : Ev → Bool
  | .newMessage .. => true
  | _ => false

def Ev.isNotification : Ev → Bool
  | .notification .. => true
  | _ => false

def Ev.isMessagesRead : Ev → Bool
  | .messagesRead .. => true
  | _ => false

def Ev.isBookingUpdated : Ev → Bool
  | .bookingUpdated .. => true
  | _ => false

/-- Python truthiness of an optional string field obtained with
`data.get(...)`: `None` and the empty string are falsy. -/
def truthyOpt : Option String → Bool
  | none => false
  | some s => !(s == "")

/-- A JSON value bound to the `content` key of a `send_message`
payload: absent, JSON `null` (Python `None`), or a string. -/
inductive JVal where
  | missing
  | nullv
  | str (s : String)
deriving DecidableEq, Repr

/-- Python `str.strip()` with no arguments: remove leading and
trailing whitespace. -/
def pyStrip (s : String) : String :=
  String.mk (((s.data.dropWhile Char.isWhitespace).reverse.dropWhile
    Char.isWhitespace).reverse)

/-- `data.get("content", "").strip()`: an absent key defaults to `""`;
a string is stripped; `None` has no `.strip` attribute, so the
expression raises. -/
def getContent : JVal → Except Unit String
  | .missing => .ok ""
  | .nullv => .error ()
  | .str s => .ok (pyStrip s)

/-! ## Message rows (`messages` table) -/

/-- A row of the external `messages` store.  `id` is assigned by the
store; the record built by `handle_message` before insertion carries an
empty `id`. -/
structure Msg where
  id : String
  sender_id : String
  receiver_id : String
  content : String
  booking_id : Option String
  created_at : String
  read_at : Option String
deriving DecidableEq, Repr

/-- Outcome of the external store insert in `handle_message`: the call
raised, returned a falsy `data`, or returned a saved row. -/
inductive InsertRes where
  | raisedErr
  | noData
  | saved (m : Msg)
deriving DecidableEq, Repr

/-! ## `send_message` handler (`handle_message`, lines 107-174) -/

/-- Result of one `send_message` dispatch. `inserted` is the record
passed to the store insert when the insert was attempted; `rlChecked`
records whether `is_rate_limited` was consulted; `raised` is true when
an exception escaped the handler uncaught. -/
structure SendResult where
  emits : List Ev
  inserted : Option Msg
  rlChecked : Bool
  rlState : List Int
  raised : Bool
deriving DecidableEq, Repr

/-- `handle_message(data)`: token check, token decode, payload read
(`content` is stripped before any validation verdict), payload
validation, rate limiting, store insert, then `new_message` broadcast
to `conv_{booking_id}` or `user_{receiver_id}` plus a `notification`
to `user_{receiver_id}`. -/
def handle_message (token : Option String) (decode : String → Option String)
    (receiver_id : Option String) (content : JVal) (booking_id : Option String)
    (now : Int) (rl : List Int) (createdAt : String) (ins : InsertRes) :
    SendResult :=
  match token with
  | none => ⟨[.error "Authentication required"], none, false, rl, false⟩
  | some tok =>
    match decode tok with
    | none => ⟨[.error "Authentication failed"], none, false, rl, false⟩
    | some sender_id =>
      match getContent content with
      | .error _ => ⟨[], none, false, rl, true⟩
      | .ok c =>
        if !truthyOpt receiver_id || (c == "") then
          ⟨[.error "receiver_id and content are required"], none, false, rl, false⟩
        else
          let recv := receiver_id.getD ""
          let r := is_rate_limited now rl
          if r.1 then
            ⟨[.error "You are sending messages too quickly. Please wait a moment."],
              none, true, r.2, false⟩
          else
            let bk : Option String := if truthyOpt booking_id then booking_id else none
            let message : Msg := ⟨"", sender_id, recv, c, bk, createdAt, none⟩
            match ins with
            | .raisedErr =>
              ⟨[.error "Failed to send message. Please try again."],
                some message, true, r.2, false⟩
            | .noData =>
              ⟨[.error "Could not save message"], some message, true, r.2, false⟩
            | .saved saved =>
              let room := if truthyOpt booking_id then
                  "conv_" ++ booking_id.getD "" else "user_" ++ recv
              ⟨[.newMessage room saved.id sender_id recv saved.content
                  saved.booking_id saved.created_at,
                .notification ("user_" ++ recv) sender_id booking_id],
                some message, true, r.2, false⟩

/-! ## `join_conversation` handler (`on_join`, lines 64-105) -/

/-- The filter of the read-receipt update query: receiver is the
joining user, `booking_id` equals the conversation id, `read_at` is
null. -/
def matchesUnread (user conv : String) (m : Msg) : Bool :=
  m.receiver_id == user && m.booking_id == some conv && m.read_at == none

/-- The store update `update({read_at: t}).eq(receiver_id, user)
.eq(booking_id, conv).is_(read_at, null)`: returns the new table
contents and the list of updated rows (the response `data`). -/
def markRead (db : List Msg) (user conv t : String) : List Msg × List Msg :=
  (db.map (fun m => if matchesUnread user conv m then { m with read_at := some t } else m),
   (db.filter (matchesUnread user conv)).map (fun m => { m with read_at := some t }))

/-- Result of one `join_conversation` dispatch.  `joinedRoom` is the
room passed to `join_room`, when reached; `db` is the message table
after the handler. -/
structure JoinResult where
  emits : List Ev
  joinedRoom : Option String
  db : List Msg
deriving DecidableEq, Repr

/-- `on_join(data)`: token check, decode, `conversation_id` check,
`join_room` plus `status` ack to the caller, then a best-effort
read-receipt update whose failure (`storeFails`) is caught and
swallowed; a `messages_read` broadcast is emitted only when the update
returned a non-empty `data`. -/
def on_join (token : Option String) (decode : String → Option String)
    (conversation_id : Option String) (db : List Msg) (storeFails : Bool)
    (t : String) : JoinResult :=
  match token with
  | none => ⟨[.error "Token required"], none, db⟩
  | some tok =>
    match decode tok with
    | none => ⟨[.error "Invalid authentication"], none, db⟩
    | some user_id =>
      if !truthyOpt conversation_id then
        ⟨[.error "conversation_id required"], none, db⟩
      else
        let conv := conversation_id.getD ""
        let room := "conv_" ++ conv
        if storeFails then
          ⟨[.status ("Joined conversation " ++ conv)], some room, db⟩
        else
          let res := markRead db user_id conv t
          if res.2.isEmpty then
            ⟨[.status ("Joined conversation " ++ conv)], some room, res.1⟩
          else
            ⟨[.status ("Joined conversation " ++ conv),
              .messagesRead room conv res.2.length], some room, res.1⟩

/-! ## `connect` handler (`handle_connect`, lines 42-58) -/

/-- Result of one `connect` dispatch.  `accepted = false` models the
handler returning Python `False`, which rejects the connection. -/
structure ConnectResult where
  emits : List Ev
  joinedRoom : Option String
  accepted : Bool
deriving DecidableEq, Repr

/-- `handle_connect()`: no token means reject with an error and no
session; a token failing `decode_token` means an authentication-failed
error and rejection; otherwise join `user_{user_id}` and emit the
`connected` acknowledgment carrying the resolved user id. -/
def handle_connect (token : Option String) (decode : String → Option String) :
    ConnectResult :=
  match token with
  | none => ⟨[.error "Authentication token required"], none, false⟩
  | some tok =>
    match decode tok with
    | none => ⟨[.error "Authentication failed"], none, false⟩
    | some user_id =>
      ⟨[.connected user_id], some ("user_" ++ user_id), true⟩

/-! ## `booking_update` handler (`handle_booking_update`, lines 176-212) -/

/-- `handle_booking_update(data)`.  `lookup` is the outcome of the
booking-store query for the booking's `seller_id`: `.error` when the
store call raised (the exception is caught with nothing emitted),
`.ok none` when no row matched, `.ok (some seller)` otherwise.
Returns the emitted events. -/
def handle_booking_update (token : Option String) (decode : String → Option String)
    (booking_id status : Option String) (lookup : Except Unit (Option String)) :
    List Ev :=
  match token with
  | none => []
  | some tok =>
    match decode tok with
    | none => []
    | some user_id =>
      if !truthyOpt booking_id || !truthyOpt status then []
      else
        match lookup with
        | .error _ => []
        | .ok none => [.error "Unauthorized action"]
        | .ok (some seller) =>
          if !(seller == user_id) then [.error "Unauthorized action"]
          else
            [.bookingUpdated ("conv_" ++ booking_id.getD "")
              (booking_id.getD "") (status.getD "") user_id]

/-! ## Theorems -/

/-- C8: on connect, a missing handshake credential yields an
authentication-required error with the connection rejected and no room
joined; a credential failing verification yields an
authentication-failed error with the connection rejected; a valid
credential joins the session to its personal mailbox room
`user_{user_id}` and emits a `connected` acknowledgment carrying the
resolved user id. -/
theorem C8_connect_auth (decode : String → Option String) (tok uid : String) :
    handle_connect none decode =
      ⟨[.error "Authentication token required"], none, false⟩
    ∧ (decode tok = none →
        handle_connect (some tok) decode =
          ⟨[.error "Authentication failed"], none, false⟩)
    ∧ (decode tok = some uid →
        handle_connect (some tok) decode =
          ⟨[.connected uid], some ("user_" ++ uid), true⟩) := by
  refine ⟨rfl, ?_, ?_⟩ <;> intro h <;> simp [handle_connect, h]

/-- Witness for C8 at a concrete verifier accepting token `"t"` as
user `"u"`. -/
theorem C8_connect_auth_witness :
    handle_connect (some "t") (fun _ => some "u") =
      ⟨[.connected "u"], some ("user_" ++ "u"), true⟩ :=
  (C8_connect_auth (fun _ => some "u") "t" "u").2.2 rfl

/-- C10: a `send_message` payload whose `content` key is bound to a
non-string value (JSON null) makes the handler raise while stripping
the content, before any validation verdict: nothing is emitted, the
rate limiter is not consulted, and no insert or broadcast occurs. -/
theorem C10_null_content_raises (tok uid : String)
    (decode : String → Option String) (hdec : decode tok = some uid)
    (receiver_id booking_id : Option String) (now : Int) (rl : List Int)
    (createdAt : String) (ins : InsertRes) :
    handle_message (some tok) decode receiver_id JVal.nullv booking_id
        now rl createdAt ins = ⟨[], none, false, rl, true⟩ := by
  simp [handle_message, hdec, getContent]

/-- Witness for C10 at a concrete authenticated session and payload. -/
theorem C10_null_content_raises_witness :
    handle_message (some "t") (fun _ => some "u") (some "r") JVal.nullv
        (some "b") 5 [] "ts" InsertRes.noData = ⟨[], none, false, [], true⟩ :=
  C10_null_content_raises "t" "u" (fun _ => some "u") rfl (some "r") (some "b")
    5 [] "ts" InsertRes.noData

/-- C3: `send_message` validation and its ordering.  A missing token
yields only an `AuthRequired`-style error; a token failing decode
yields only an authentication-failed error; with valid credentials, a
falsy `receiver_id` or empty stripped content yields only an
invalid-payload error; past validation, a rate-limited sender yields
only the rate-limit error.  In all four cases no insert is attempted
and no broadcast occurs, and in the first three the rate limiter is
not consulted. -/
theorem C3_send_validation (decode : String → Option String) (tok : String)
    (receiver_id : Option String) (content : JVal) (booking_id : Option String)
    (now : Int) (rl : List Int) (createdAt : String) (ins : InsertRes) :
    handle_message none decode receiver_id content booking_id now rl createdAt ins =
      ⟨[.error "Authentication required"], none, false, rl, false⟩
    ∧ (decode tok = none →
        handle_message (some tok) decode receiver_id content booking_id now rl createdAt ins =
          ⟨[.error "Authentication failed"], none, false, rl, false⟩)
    ∧ (∀ uid c, decode tok = some uid → getContent content = .ok c →
        (truthyOpt receiver_id = false ∨ c = "") →
        handle_message (some tok) decode receiver_id content booking_id now rl createdAt ins =
          ⟨[.error "receiver_id and content are required"], none, false, rl, false⟩)
    ∧ (∀ uid c, decode tok = some uid → getContent content = .ok c →
        truthyOpt receiver_id = true → c ≠ "" →
        (is_rate_limited now rl).1 = true →
        handle_message (some tok) decode receiver_id content booking_id now rl createdAt ins =
          ⟨[.error "You are sending messages too quickly. Please wait a moment."],
            none, true, (is_rate_limited now rl).2, false⟩) := by
  refine ⟨rfl, ?_, ?_, ?_⟩
  · intro h; simp [handle_message, h]
  · intro uid c hdec hc hbad
    rcases hbad with hbad | hbad <;>
      simp [handle_message, hdec, hc, hbad]
  · intro uid c hdec hc hrecv hcne hlim
    simp [handle_message, hdec, hc, hrecv, hcne, hlim]

/-- Witness for C3: unauthenticated-decode case at concrete inputs. -/
theorem C3_send_validation_witness :
    handle_message (some "bad") (fun _ => none) (some "r") (.str "hi") none
        0 [] "ts" InsertRes.noData =
      ⟨[.error "Authentication failed"], none, false, [], false⟩ :=
  (C3_send_validation (fun _ => none) "bad" (some "r") (.str "hi") none
    0 [] "ts" InsertRes.noData).2.1 rfl

/-- C6: an authenticated `join_conversation` with a non-empty
conversation id completes the room join and the `status`
acknowledgment even when the read-receipt store update raises: the
failure is swallowed, no error event reaches the client, and the join
is not undone. -/
theorem C6_join_survives_store_failure (tok uid : String)
    (decode : String → Option String) (hdec : decode tok = some uid)
    (conv : Option String) (hconv : truthyOpt conv = true)
    (db : List Msg) (t : String) :
    on_join (some tok) decode conv db true t =
      ⟨[.status ("Joined conversation " ++ conv.getD "")],
        some ("conv_" ++ conv.getD ""), db⟩
    ∧ ((on_join (some tok) decode conv db true t).emits.any Ev.isError) = false := by
  constructor
  · simp [on_join, hdec, hconv]
  · simp [on_join, hdec, hconv, Ev.isError]

/-- Witness for C6 at a concrete failing store. -/
theorem C6_join_survives_store_failure_witness :
    on_join (some "t") (fun _ => some "u") (some "c1") [] true "T" =
      ⟨[.status ("Joined conversation " ++ "c1")], some ("conv_" ++ "c1"), []⟩ :=
  (C6_join_survives_store_failure "t" "u" (fun _ => some "u") rfl (some "c1")
    (by decide) [] "T").1

/-- C7: `booking_update` is silent when the credential is absent or
invalid or when `booking_id`/`status` is falsy; a successful lookup
whose seller does not match the session user (or finds no booking)
emits only an `Unauthorized` error; and a `booking_updated` broadcast
occurs only when the looked-up seller equals the session user. -/
theorem C7_booking_authorization (decode : String → Option String)
    (tok : String) (booking_id status : Option String)
    (lookup : Except Unit (Option String)) :
    handle_booking_update none decode booking_id status lookup = []
    ∧ (decode tok = none →
        handle_booking_update (some tok) decode booking_id status lookup = [])
    ∧ (∀ uid, decode tok = some uid →
        (truthyOpt booking_id = false ∨ truthyOpt status = false) →
        handle_booking_update (some tok) decode booking_id status lookup = [])
    ∧ (∀ uid, decode tok = some uid → truthyOpt booking_id = true →
        truthyOpt status = true → lookup = .ok none →
        handle_booking_update (some tok) decode booking_id status lookup =
          [.error "Unauthorized action"])
    ∧ (∀ uid seller, decode tok = some uid → truthyOpt booking_id = true →
        truthyOpt status = true → lookup = .ok (some seller) → seller ≠ uid →
        handle_booking_update (some tok) decode booking_id status lookup =
          [.error "Unauthorized action"])
    ∧ (∀ e ∈ handle_booking_update (some tok) decode booking_id status lookup,
        e.isBookingUpdated = true →
        ∃ u, decode tok = some u ∧ lookup = .ok (some u)) := by
  refine ⟨rfl, ?_, ?_, ?_, ?_, ?_⟩
  · intro h; simp [handle_booking_update, h]
  · intro uid hdec hbad
    rcases hbad with hbad | hbad <;>
      simp [handle_booking_update, hdec, hbad]
  · intro uid hdec hb hs hlk
    simp [handle_booking_update, hdec, hb, hs, hlk]
  · intro uid seller hdec hb hs hlk hne
    simp [handle_booking_update, hdec, hb, hs, hlk, hne]
  · intro e he hb
    cases hd : decode tok with
    | none => simp [handle_booking_update, hd] at he
    | some uid =>
      simp only [handle_booking_update, hd] at he
      by_cases hbk : (!truthyOpt booking_id || !truthyOpt status) = true
      · rw [if_pos hbk] at he; simp at he
      · rw [if_neg hbk] at he
        cases lookup with
        | error _ => simp at he
        | ok ob =>
          cases ob with
          | none =>
            simp at he; subst he; simp [Ev.isBookingUpdated] at hb
          | some seller =>
            by_cases hs : (!(seller == uid)) = true
            · simp [hs] at he; subst he
              simp [Ev.isBookingUpdated] at hb
            · simp [hs] at he
              simp at hs
              exact ⟨uid, rfl, by rw [hs]⟩

/-- Witness for C7: non-matching seller at concrete inputs. -/
theorem C7_booking_authorization_witness :
    handle_booking_update (some "t") (fun _ => some "u") (some "b") (some "done")
        (.ok (some "v")) = [.error "Unauthorized action"] :=
  (C7_booking_authorization (fun _ => some "u") "t" (some "b") (some "done")
    (.ok (some "v"))).2.2.2.2.1 "u" "v" rfl (by decide) (by decide) rfl (by decide)

/-- An admitted rate-limit check leaves `now` recorded in the
sorted-set state. -/
lemma rl_admitted_records (now : Int) (rl : List Int)
    (h : (is_rate_limited now rl).1 = false) :
    now ∈ (is_rate_limited now rl).2 := by
  by_cases hc : RATE_LIMIT_COUNT ≤ (purge now rl).length
  · simp [is_rate_limited, hc] at h
  · simp [is_rate_limited, hc]
    by_cases hm : now ∈ purge now rl
    · simp [hm]
    · simp [hm]

/-- C1: past validation and rate limiting, a `new_message` broadcast is
emitted iff the store insert returned data; any broadcast implies the
insert was attempted (persistence happens-before broadcast); and when
the insert raises or returns no data, the handler emits exactly one
error event to the sender and neither `new_message` nor
`notification`. -/
theorem C1_persistence_gates_broadcast (tok uid : String)
    (decode : String → Option String) (hdec : decode tok = some uid)
    (receiver_id : Option String) (hrecv : truthyOpt receiver_id = true)
    (content : JVal) (c : String) (hc : getContent content = .ok c)
    (hcne : c ≠ "") (booking_id : Option String) (now : Int) (rl : List Int)
    (hadm : (is_rate_limited now rl).1 = false) (createdAt : String)
    (ins : InsertRes) :
    (((handle_message (some tok) decode receiver_id content booking_id now rl
        createdAt ins).emits.any Ev.isNewMessage) = true ↔ ∃ m, ins = .saved m)
    ∧ ((handle_message (some tok) decode receiver_id content booking_id now rl
        createdAt ins).emits.any Ev.isNewMessage = true →
       (handle_message (some tok) decode receiver_id content booking_id now rl
        createdAt ins).inserted.isSome = true)
    ∧ (ins = .raisedErr →
        handle_message (some tok) decode receiver_id content booking_id now rl
          createdAt ins =
          ⟨[.error "Failed to send message. Please try again."],
            some ⟨"", uid, receiver_id.getD "", c,
              (if truthyOpt booking_id = true then booking_id else none),
              createdAt, none⟩,
            true, (is_rate_limited now rl).2, false⟩)
    ∧ (ins = .noData →
        handle_message (some tok) decode receiver_id content booking_id now rl
          createdAt ins =
          ⟨[.error "Could not save message"],
            some ⟨"", uid, receiver_id.getD "", c,
              (if truthyOpt booking_id = true then booking_id else none),
              createdAt, none⟩,
            true, (is_rate_limited now rl).2, false⟩) := by
  refine ⟨?_, ?_, ?_, ?_⟩
  · cases ins <;>
      simp [handle_message, hdec, hc, hrecv, hcne, hadm,
        Ev.isNewMessage, Ev.isNotification, Ev.isError]
  · cases ins <;>
      simp [handle_message, hdec, hc, hrecv, hcne, hadm, Ev.isNewMessage]
  · rintro rfl
    simp [handle_message, hdec, hc, hrecv, hcne, hadm]
  · rintro rfl
    simp [handle_message, hdec, hc, hrecv, hcne, hadm]

/-- Witness for C1: a raising insert at concrete inputs. -/
theorem C1_persistence_gates_broadcast_witness :
    handle_message (some "t") (fun _ => some "u") (some "r") (.str "hi") none
        5 [] "ts" InsertRes.raisedErr =
      ⟨[.error "Failed to send message. Please try again."],
        some ⟨"", "u", "r", "hi", none, "ts", none⟩, true, [5], false⟩ := by
  have h := (C1_persistence_gates_broadcast "t" "u" (fun _ => some "u") rfl
    (some "r") (by decide) (.str "hi") "hi" rfl (by decide) none 5 []
    (by decide) "ts" InsertRes.raisedErr).2.2.1 rfl
  simpa using h

/-- C4: on a successful insert, the `new_message` broadcast targets
`conv_{booking_id}` when a (truthy) conversation key was provided and
`user_{receiver_id}` otherwise, and in both cases exactly one
`notification` event goes to the receiver's personal mailbox room
`user_{receiver_id}`. -/
theorem C4_broadcast_rooms (tok uid : String)
    (decode : String → Option String) (hdec : decode tok = some uid)
    (receiver_id : Option String) (hrecv : truthyOpt receiver_id = true)
    (content : JVal) (c : String) (hc : getContent content = .ok c)
    (hcne : c ≠ "") (booking_id : Option String) (now : Int) (rl : List Int)
    (hadm : (is_rate_limited now rl).1 = false) (createdAt : String)
    (saved : Msg) :
    (truthyOpt booking_id = true →
      (handle_message (some tok) decode receiver_id content booking_id now rl
        createdAt (.saved saved)).emits =
        [.newMessage ("conv_" ++ booking_id.getD "") saved.id uid
            (receiver_id.getD "") saved.content saved.booking_id saved.created_at,
         .notification ("user_" ++ receiver_id.getD "") uid booking_id])
    ∧ (truthyOpt booking_id = false →
      (handle_message (some tok) decode receiver_id content booking_id now rl
        createdAt (.saved saved)).emits =
        [.newMessage ("user_" ++ receiver_id.getD "") saved.id uid
            (receiver_id.getD "") saved.content saved.booking_id saved.created_at,
         .notification ("user_" ++ receiver_id.getD "") uid booking_id])
    ∧ ((handle_message (some tok) decode receiver_id content booking_id now rl
        createdAt (.saved saved)).emits.filter Ev.isNotification =
        [.notification ("user_" ++ receiver_id.getD "") uid booking_id]) := by
  refine ⟨?_, ?_, ?_⟩
  · intro hb
    simp [handle_message, hdec, hc, hrecv, hcne, hadm, hb]
  · intro hb
    simp [handle_message, hdec, hc, hrecv, hcne, hadm, hb]
  · by_cases hb : truthyOpt booking_id = true
    · simp [handle_message, hdec, hc, hrecv, hcne, hadm, hb,
        Ev.isNotification, Ev.isNewMessage]
    · simp at hb
      simp [handle_message, hdec, hc, hrecv, hcne, hadm, hb,
        Ev.isNotification, Ev.isNewMessage]

/-- Witness for C4: a send with a conversation key at concrete
inputs. -/
theorem C4_broadcast_rooms_witness :
    (handle_message (some "t") (fun _ => some "u") (some "r") (.str "hi")
        (some "b") 5 [] "ts"
        (.saved ⟨"id1", "u", "r", "hi", some "b", "ts", none⟩)).emits =
      [.newMessage ("conv_" ++ "b") "id1" "u" "r" "hi" (some "b") "ts",
       .notification ("user_" ++ "r") "u" (some "b")] := by
  have h := (C4_broadcast_rooms "t" "u" (fun _ => some "u") rfl (some "r")
    (by decide) (.str "hi") "hi" rfl (by decide) (some "b") 5 []
    (by decide) "ts" ⟨"id1", "u", "r", "hi", some "b", "ts", none⟩).1 (by decide)
  simpa using h

/-- C9: for an admitted `send_message`, the rate-limit timestamp is
recorded during the admission check, before the insert is attempted:
the resulting sorted-set state is exactly the state produced by
`is_rate_limited`, it contains `now`, and it is the same for every
insert outcome, including failures. -/
theorem C9_slot_consumed_on_failure (tok uid : String)
    (decode : String → Option String) (hdec : decode tok = some uid)
    (receiver_id : Option String) (hrecv : truthyOpt receiver_id = true)
    (content : JVal) (c : String) (hc : getContent content = .ok c)
    (hcne : c ≠ "") (booking_id : Option String) (now : Int) (rl : List Int)
    (hadm : (is_rate_limited now rl).1 = false) (createdAt : String)
    (ins ins' : InsertRes) :
    (handle_message (some tok) decode receiver_id content booking_id now rl
        createdAt ins).rlState = (is_rate_limited now rl).2
    ∧ now ∈ (handle_message (some tok) decode receiver_id content booking_id
        now rl createdAt ins).rlState
    ∧ (handle_message (some tok) decode receiver_id content booking_id now rl
        createdAt ins).rlState =
      (handle_message (some tok) decode receiver_id content booking_id now rl
        createdAt ins').rlState := by
  have hst : ∀ i : InsertRes,
      (handle_message (some tok) decode receiver_id content booking_id now rl
        createdAt i).rlState = (is_rate_limited now rl).2 := by
    intro i
    cases i <;> simp [handle_message, hdec, hc, hrecv, hcne, hadm]
  refine ⟨hst ins, ?_, ?_⟩
  · rw [hst ins]
    exact rl_admitted_records now rl hadm
  · rw [hst ins, hst ins']

/-- Witness for C9: a raising insert still consumes the slot. -/
theorem C9_slot_consumed_on_failure_witness :
    (handle_message (some "t") (fun _ => some "u") (some "r") (.str "hi") none
        5 [] "ts" InsertRes.raisedErr).rlState = (is_rate_limited 5 []).2
    ∧ (5 : Int) ∈ (handle_message (some "t") (fun _ => some "u") (some "r")
        (.str "hi") none 5 [] "ts" InsertRes.raisedErr).rlState := by
  have h := C9_slot_consumed_on_failure "t" "u" (fun _ => some "u") rfl
    (some "r") (by decide) (.str "hi") "hi" rfl (by decide) none 5 []
    (by decide) "ts" InsertRes.raisedErr InsertRes.noData
  exact ⟨h.1, h.2.1⟩

/-- When every retained score is inside the trailing window, the purge
step removes nothing. -/
lemma purge_eq_self (now : Int) (st : List Int)
    (h : ∀ x ∈ st, now - RATE_LIMIT_WINDOW_SECONDS < x) : purge now st = st := by
  rw [purge, List.filter_eq_self]
  intro x hx
  simp
  exact Or.inr (h x hx)

/-- An in-window check below the cap admits and appends `now`. -/
lemma is_rate_limited_admit (now : Int) (st : List Int)
    (hlen : st.length < RATE_LIMIT_COUNT)
    (hkeep : ∀ x ∈ st, now - RATE_LIMIT_WINDOW_SECONDS < x)
    (hnm : now ∉ st) :
    is_rate_limited now st = (false, st ++ [now]) := by
  have hp := purge_eq_self now st hkeep
  simp [is_rate_limited, hp, Nat.not_le.mpr hlen, hnm]

/-- An in-window check at or above the cap reports limited and records
nothing. -/
lemma is_rate_limited_reject (now : Int) (st : List Int)
    (hlen : RATE_LIMIT_COUNT ≤ st.length)
    (hkeep : ∀ x ∈ st, now - RATE_LIMIT_WINDOW_SECONDS < x) :
    is_rate_limited now st = (true, st) := by
  simp [is_rate_limited, purge_eq_self now st hkeep, hlen]

lemma runRL_append (a b s : List Int) :
    runRL (a ++ b) s =
      ((runRL a s).1 ++ (runRL b (runRL a s).2).1, (runRL b (runRL a s).2).2) := by
  induction a generalizing s with
  | nil => simp [runRL]
  | cons t a ih => simp [runRL, ih]

/-- Running the limiter over strictly increasing call times that all
fit inside every check's trailing window admits them all, as long as
the prior state plus the new calls stay within the cap. -/
lemma runRL_admits_all (ts : List Int) : ∀ s : List Int,
    s.length + ts.length ≤ RATE_LIMIT_COUNT →
    (s ++ ts).Pairwise (· < ·) →
    (∀ x ∈ s ++ ts, ∀ u ∈ ts, u - RATE_LIMIT_WINDOW_SECONDS < x) →
    runRL ts s = (List.replicate ts.length false, s ++ ts) := by
  induction ts with
  | nil => intro s _ _ _; simp [runRL]
  | cons u ts ih =>
    intro s hlen hp hk
    have hcross : ∀ x ∈ s, x < u := by
      intro x hx
      exact (List.pairwise_append.mp hp).2.2 x hx u (List.mem_cons_self u ts)
    have hnm : u ∉ s := fun hmem => lt_irrefl u (hcross u hmem)
    have hkeep : ∀ x ∈ s, u - RATE_LIMIT_WINDOW_SECONDS < x := by
      intro x hx
      exact hk x (List.mem_append_left _ hx) u (List.mem_cons_self u ts)
    have hlt : s.length < RATE_LIMIT_COUNT := by
      simp at hlen; omega
    have hr := is_rate_limited_admit u s hlt hkeep hnm
    have hp' : ((s ++ [u]) ++ ts).Pairwise (· < ·) := by
      simpa [List.append_assoc] using hp
    have hk' : ∀ x ∈ (s ++ [u]) ++ ts, ∀ v ∈ ts,
        v - RATE_LIMIT_WINDOW_SECONDS < x := by
      intro x hx v hv
      rw [List.append_assoc] at hx
      exact hk x (by simpa using hx) v (List.mem_cons_of_mem u hv)
    have hlen' : (s ++ [u]).length + ts.length ≤ RATE_LIMIT_COUNT := by
      simp at hlen ⊢; omega
    have hrec := ih (s ++ [u]) hlen' hp' hk'
    simp only [runRL, hr, hrec]
    simp [List.append_assoc, List.replicate_succ]

/-- C2: the limiter is a sliding-window counter with window 60 s and
cap 8.  For nine strictly increasing call times whose span is inside
one 60-second window, the first eight are admitted and the ninth is
rejected while recording nothing; and at any later instant `T`, the
check admits (recording `T`) exactly when fewer than 8 recorded
timestamps survive the purge of scores in `[0, T - 60]`, and reports
limited without recording otherwise. -/
theorem C2_sliding_window (ts : List Int) (t9 : Int) (h8 : ts.length = 8)
    (hp : (ts ++ [t9]).Pairwise (· < ·))
    (hwin : ∀ x ∈ ts ++ [t9], t9 - RATE_LIMIT_WINDOW_SECONDS < x) :
    (runRL (ts ++ [t9]) []).1 = List.replicate 8 false ++ [true]
    ∧ (runRL (ts ++ [t9]) []).2 = ts
    ∧ (∀ T : Int, (purge T ts).length < RATE_LIMIT_COUNT →
        (is_rate_limited T ts).1 = false ∧ T ∈ (is_rate_limited T ts).2)
    ∧ (∀ T : Int, RATE_LIMIT_COUNT ≤ (purge T ts).length →
        is_rate_limited T ts = (true, purge T ts)) := by
  have hsplit := List.pairwise_append.mp hp
  have hlt9 : ∀ x ∈ ts, x < t9 := by
    intro x hx
    exact hsplit.2.2 x hx t9 (List.mem_singleton.mpr rfl)
  have hk0 : ∀ x ∈ ([] : List Int) ++ ts, ∀ u ∈ ts,
      u - RATE_LIMIT_WINDOW_SECONDS < x := by
    intro x hx u hu
    have h1 : u < t9 := hlt9 u hu
    have h2 : t9 - RATE_LIMIT_WINDOW_SECONDS < x :=
      hwin x (List.mem_append_left _ (by simpa using hx))
    omega
  have hrun8 := runRL_admits_all ts [] (by simp [h8, RATE_LIMIT_COUNT])
    (by simpa using hsplit.1) hk0
  have h9 : is_rate_limited t9 ts = (true, ts) :=
    is_rate_limited_reject t9 ts (by simp [h8, RATE_LIMIT_COUNT])
      (fun x hx => hwin x (List.mem_append_left _ hx))
  have happ := runRL_append ts [t9] []
  refine ⟨?_, ?_, ?_, ?_⟩
  · rw [happ, hrun8]
    simp [runRL, h9, h8]
  · rw [happ, hrun8]
    simp [runRL, h9]
  · intro T hT
    have hfalse : (is_rate_limited T ts).1 = false := by
      simp [is_rate_limited, Nat.not_le.mpr hT]
    exact ⟨hfalse, rl_admitted_records T ts hfalse⟩
  · intro T hT
    simp [is_rate_limited, hT]

/-- Witness for C2: nine sends at seconds 1..9 and a later recheck at
second 100. -/
theorem C2_sliding_window_witness :
    (runRL ([1, 2, 3, 4, 5, 6, 7, 8] ++ [9]) []).1 =
      List.replicate 8 false ++ [true]
    ∧ (is_rate_limited 100 [1, 2, 3, 4, 5, 6, 7, 8]).1 = false := by
  have h := C2_sliding_window [1, 2, 3, 4, 5, 6, 7, 8] 9 (by decide)
    (by decide) (by decide)
  exact ⟨h.1, (h.2.2.1 100 (by decide)).1⟩

/-- After `markRead`, no row of the table still matches the unread
filter for that user and conversation. -/
lemma markRead_clears (db : List Msg) (u conv t : String) :
    (markRead db u conv t).1.filter (matchesUnread u conv) = [] := by
  rw [List.filter_eq_nil_iff]
  intro m hm
  simp [markRead] at hm
  obtain ⟨a, ha, rfl⟩ := hm
  by_cases h : matchesUnread u conv a
  · rw [if_pos h]
    simp [matchesUnread]
  · rw [if_neg h]
    exact h

/-- An authenticated join on a table with no matching unread rows
emits only the `status` acknowledgment. -/
lemma on_join_no_unread (tok uid : String) (decode : String → Option String)
    (hdec : decode tok = some uid) (conv : String) (hconv : conv ≠ "")
    (db : List Msg) (t : String)
    (h : db.filter (matchesUnread uid conv) = []) :
    on_join (some tok) decode (some conv) db false t =
      ⟨[.status ("Joined conversation " ++ conv)], some ("conv_" ++ conv), db⟩ := by
  have hmap : (markRead db uid conv t).1 = db := by
    rw [List.filter_eq_nil_iff] at h
    have hcg : ∀ m ∈ db,
        (if matchesUnread uid conv m then { m with read_at := some t } else m) =
          id m := by
      intro m hm; simp [h m hm]
    simp only [markRead]
    rw [List.map_congr_left hcg, List.map_id]
  have hie : (markRead db uid conv t).2 = [] := by
    simp [markRead, h]
  simp [on_join, hdec, truthyOpt, hconv, hie, hmap]

/-- C5: an authenticated `join_conversation` with N > 0 matching
unread messages (receiver is the joining user, scoped to this
conversation, `read_at` null) emits the `status` acknowledgment
followed by exactly one `messages_read` broadcast with count N, and no
matching unread row remains afterwards; with zero such messages no
`messages_read` is emitted; and joining again immediately afterwards
emits no `messages_read` (idempotence). -/
theorem C5_read_receipts (tok uid : String) (decode : String → Option String)
    (hdec : decode tok = some uid) (conv : String) (hconv : conv ≠ "")
    (db : List Msg) (t t2 : String) :
    (0 < (db.filter (matchesUnread uid conv)).length →
      (on_join (some tok) decode (some conv) db false t).emits =
        [.status ("Joined conversation " ++ conv),
         .messagesRead ("conv_" ++ conv) conv
           (db.filter (matchesUnread uid conv)).length]
      ∧ (on_join (some tok) decode (some conv) db false t).db.filter
          (matchesUnread uid conv) = [])
    ∧ ((db.filter (matchesUnread uid conv)).length = 0 →
      (on_join (some tok) decode (some conv) db false t).emits.any
        Ev.isMessagesRead = false)
    ∧ ((on_join (some tok) decode (some conv)
        ((on_join (some tok) decode (some conv) db false t).db) false
        t2).emits.any Ev.isMessagesRead = false) := by
  have htr : truthyOpt (some conv) = true := by
    simp [truthyOpt, hconv]
  have hdbeq : (on_join (some tok) decode (some conv) db false t).db =
      (markRead db uid conv t).1 := by
    by_cases hie : (markRead db uid conv t).2.isEmpty <;>
      simp [on_join, hdec, htr, hie]
  refine ⟨?_, ?_, ?_⟩
  · intro hN
    have hne : (markRead db uid conv t).2 ≠ [] := by
      simp only [markRead]
      intro hcon
      rw [List.map_eq_nil_iff] at hcon
      rw [hcon] at hN
      simp at hN
    have hie : (markRead db uid conv t).2.isEmpty = false := by
      simpa [List.isEmpty_iff] using hne
    have hlen : (markRead db uid conv t).2.length =
        (db.filter (matchesUnread uid conv)).length := by
      simp [markRead]
    constructor
    · simp [on_join, hdec, htr, hie, hlen]
    · rw [hdbeq]
      exact markRead_clears db uid conv t
  · intro hN
    have hnil : db.filter (matchesUnread uid conv) = [] :=
      List.length_eq_zero.mp hN
    rw [on_join_no_unread tok uid decode hdec conv hconv db t hnil]
    simp [Ev.isMessagesRead]
  · rw [on_join_no_unread tok uid decode hdec conv hconv _ t2
      (by rw [hdbeq]; exact markRead_clears db uid conv t)]
    simp [Ev.isMessagesRead]

/-- Witness for C5 at a concrete table with one matching unread
message, one for another conversation and one for another receiver. -/
theorem C5_read_receipts_witness :
    (on_join (some "t") (fun _ => some "u") (some "c1")
        [⟨"1", "s", "u", "hi", some "c1", "ts", none⟩,
         ⟨"2", "s", "u", "yo", some "c2", "ts", none⟩,
         ⟨"3", "s", "v", "ho", some "c1", "ts", none⟩] false "T").emits =
      [.status ("Joined conversation " ++ "c1"),
       .messagesRead ("conv_" ++ "c1") "c1" 1] := by
  have h := (C5_read_receipts "t" "u" (fun _ => some "u") rfl "c1" (by decide)
    [⟨"1", "s", "u", "hi", some "c1", "ts", none⟩,
     ⟨"2", "s", "u", "yo", some "c2", "ts", none⟩,
     ⟨"3", "s", "v", "ho", some "c1", "ts", none⟩] "T" "T2").1 (by decide)
  have he := h.1
  simpa using he

end VirtualPace
